import Mathlib

/-!
Verification development for the dockerd prototype (src/dockerd/dockerd.go).

The Go program is embedded shallowly:
* Go maps (`map[string]Layer`, `map[string]Container`) become association
  lists; assignment `m[k] = v` prepends, so lookup (first match) has the
  same overwrite semantics as a Go map.
* External effects (the id generator `randomId()`, the size estimator
  `rand.Int31n(142*1024*1024)`, `time.Now()`, and the outcome of the child
  process spawned by `Container.Run`) are passed as explicit inputs.
* Error returns become `Option String` (`some msg` = the Go `error`,
  `none` = nil), with the exact message strings of the source.
-/

namespace Dockerd

/-- `type Layer struct` (dockerd.go:340). `Added` is modelled as a `Nat`
timestamp. -/
structure Layer where
  id : String
  name : String
  added : Nat
  size : Nat
  source : String
deriving Repr, DecidableEq

/-- `type Container struct` (dockerd.go:348). `Created` is a `Nat`
timestamp. The Go struct literal in `CmdRun` omits `Running`, so the zero
value `false` is spelled out wherever a container is constructed. -/
structure Container where
  id : String
  cmd : String
  args : List String
  layers : List Layer
  created : Nat
  filesChanged : Nat
  bytesChanged : Nat
  running : Bool
deriving Repr, DecidableEq

/-- `type Docker struct` (dockerd.go:335): the two id-keyed registries,
as association lists standing for the Go maps. -/
structure Docker where
  layers : List (String × Layer)
  containers : List (String × Container)
deriving Repr, DecidableEq

/-- `func New() *Docker` (dockerd.go:269): both maps empty. -/
def Docker.new : Docker := { layers := [], containers := [] }

/-- Go map read `m[k]`: first matching key wins (insertion prepends, so
the most recent write shadows older ones, as a Go overwrite does). -/
def mapLookup {α : Type} : List (String × α) → String → Option α
  | [], _ => none
  | (k2, v) :: rest, k => if k2 = k then some v else mapLookup rest k

/-- Upper bound of the size estimator `rand.Int31n(142 * 1024 * 1024)`
used by `addLayer` (dockerd.go:130): the estimate lies in
`[0, 142*1024*1024)`. -/
def sizeEstimatorBound : Nat := 142 * 1024 * 1024

/-- `func (docker *Docker) addLayer` (dockerd.go:128-135). The external
size estimator's draw is the input `estimate`, `randomId()` is `freshId`,
`time.Now()` is `now`. If `size == 0` the estimate is used; the layer is
stored under its fresh id and returned. -/
def Docker.addLayer (d : Docker) (name source : String) (size : Nat)
    (freshId : String) (estimate : Nat) (now : Nat) : Docker × Layer :=
  let sz := if size = 0 then estimate else size
  let layer : Layer :=
    { id := freshId, name := name, source := source, added := now, size := sz }
  ({ d with layers := (layer.id, layer) :: d.layers }, layer)

/-- Result of the `copy_in` goroutine of `Container.Run`
(dockerd.go:375-381): it closes the process stdin sink and the caller's
stdin, forwards no bytes (the `io.Copy` is commented out), and returns
nil unconditionally. -/
structure InTaskResult where
  closedCmdStdin : Bool
  closedCallerStdin : Bool
  bytesForwarded : Nat
  err : Option String
deriving Repr, DecidableEq

/-- The `copy_in` task body: `cmd_stdin.Close(); stdin.Close(); return nil`. -/
def copyInTask : InTaskResult :=
  { closedCmdStdin := true, closedCallerStdin := true,
    bytesForwarded := 0, err := none }

/-- Outcomes of the external process for one `Container.Run` call:
`spawnErr` is the error of `startCommand` (pipe setup or `cmd.Start`),
`waitErr` the error of `cmd.Wait()` (non-zero exit), `copyOutErr` the
error reported by the output-copy goroutine's `io.Copy`. -/
structure RunEnv where
  spawnErr : Option String
  waitErr : Option String
  copyOutErr : Option String
deriving Repr, DecidableEq

/-- Result of `Container.Run`: the receiver's final state, the returned
error, and whether a child process spawn was attempted past the guard. -/
structure RunResult where
  container : Container
  err : Option String
  spawned : Bool
deriving Repr, DecidableEq

/-- The body of `Container.Run` after the guard (dockerd.go:366-391), as
the error it returns and whether spawning was reached: spawn error first,
then the `cmd.Wait()` error, then the `copy_in` channel result (always
nil), then the `copy_out` channel result. -/
def Container.runBody (env : RunEnv) : Option String × Bool :=
  match env.spawnErr with
  | some e => (some e, false)
  | none =>
    match env.waitErr with
    | some e => (some e, true)
    | none =>
      match copyInTask.err with
      | some e => (some e, true)
      | none =>
        match env.copyOutErr with
        | some e => (some e, true)
        | none => (none, true)

/-- The same body with the dead `copy_in` error check removed, to compare
against `Container.runBody`. -/
def Container.runBodyNoInCheck (env : RunEnv) : Option String × Bool :=
  match env.spawnErr with
  | some e => (some e, false)
  | none =>
    match env.waitErr with
    | some e => (some e, true)
    | none =>
      match env.copyOutErr with
      | some e => (some e, true)
      | none => (none, true)

/-- The deferred `func() { c.Running = false }` (dockerd.go:365). -/
def Container.releaseRunning (c : Container) : Container :=
  { c with running := false }

/-- `func (c *Container) Run` (dockerd.go:359-392). Guard: if already
running, fail with "Already running", nothing spawned, receiver
unchanged. Otherwise set `running := true`, run the body, and apply the
single deferred release on every exit path. -/
def Container.run (c : Container) (env : RunEnv) : RunResult :=
  if c.running then
    { container := c, err := some "Already running", spawned := false }
  else
    let started : Container := { c with running := true }
    let body := Container.runBody env
    { container := started.releaseRunning, err := body.1, spawned := body.2 }

/-- The layer-resolution loop of `CmdRun` (dockerd.go:174-186): each
reference is looked up in the layer map first, then in the container map
(whose layers are spliced in, in order); the first reference matching
neither aborts with "No such layer or container: <name>". -/
def Docker.resolveLayers (d : Docker) : List String → Except String (List Layer)
  | [] => Except.ok []
  | n :: rest =>
    match mapLookup d.layers n with
    | some l =>
      match d.resolveLayers rest with
      | Except.ok ls => Except.ok (l :: ls)
      | Except.error e => Except.error e
    | none =>
      match mapLookup d.containers n with
      | some srcContainer =>
        match d.resolveLayers rest with
        | Except.ok ls => Except.ok (srcContainer.layers ++ ls)
        | Except.error e => Except.error e
      | none => Except.error ("No such layer or container: " ++ n)

/-- The fresh data `CmdRun` draws when building a container
(dockerd.go:166-173): `randomId()`, `time.Now()`, and the two
`rand.Int31n` placeholder counters. -/
structure FreshContainer where
  id : String
  now : Nat
  filesChanged : Nat
  bytesChanged : Nat
deriving Repr, DecidableEq

/-- `func (docker *Docker) CmdRun` (dockerd.go:148-189), after flag
parsing: `flLayers` is the accumulated `-l` list, `posArgs` the
positional arguments (command followed by its arguments). The container
is built with `Running` at its zero value `false`, its layers resolved
in order, and it is inserted into the map by value BEFORE `Run` is
called on the local copy, so the `Running` mutation never reaches the
stored entry (the run result's container is discarded). -/
def Docker.cmdRun (d : Docker) (flLayers : List String)
    (posArgs : List String) (fresh : FreshContainer) (env : RunEnv) :
    Docker × Option String :=
  if flLayers.length < 1 then
    (d, some "Please specify at least one layer")
  else
    match posArgs with
    | [] => (d, some "No command specified")
    | cmd :: cmdArgs =>
      match d.resolveLayers flLayers with
      | Except.error e => (d, some e)
      | Except.ok ls =>
        let container : Container :=
          { id := fresh.id, cmd := cmd, args := cmdArgs, layers := ls,
            created := fresh.now, filesChanged := fresh.filesChanged,
            bytesChanged := fresh.bytesChanged, running := false }
        let d2 : Docker :=
          { d with containers := (container.id, container) :: d.containers }
        (d2, (container.run env).err)

/-- `func (docker *Docker) CmdClone` (dockerd.go:191-207) in its default
reset mode, after flag parsing: look up the source container and
re-invoke `CmdRun` with `-l <container.Id> -- <container.Cmd>
<container.Args...>`. -/
def Docker.cmdClone (d : Docker) (cid : String) (fresh : FreshContainer)
    (env : RunEnv) : Docker × Option String :=
  match mapLookup d.containers cid with
  | none => (d, some ("No such container: " ++ cid))
  | some c => d.cmdRun [cid] (c.cmd :: c.args) fresh env

/-- `func (docker *Docker) CmdGet` (dockerd.go:85-94): requires one
argument and adds a layer with source "download" and estimated size. -/
def Docker.cmdGet (d : Docker) (args : List String) (freshId : String)
    (estimate now : Nat) : Docker × Option String :=
  match args with
  | [] => (d, some "Not enough arguments")
  | src :: _ => ((d.addLayer src "download" 0 freshId estimate now).1, none)

/-- `func (docker *Docker) CmdPut` (dockerd.go:96-104): like CmdGet with
source "upload". -/
def Docker.cmdPut (d : Docker) (args : List String) (freshId : String)
    (estimate now : Nat) : Docker × Option String :=
  match args with
  | [] => (d, some "Not enough arguments")
  | src :: _ => ((d.addLayer src "upload" 0 freshId estimate now).1, none)

/-- `func (docker *Docker) CmdExport` (dockerd.go:106-125) after flag
parsing, with its two positional arguments: adds a layer from the named
container's `BytesChanged`. -/
def Docker.cmdExport (d : Docker) (cArg lArg : String) (freshId : String)
    (estimate now : Nat) : Docker × Option String :=
  match mapLookup d.containers cArg with
  | none => (d, some "No such container")
  | some c =>
    ((d.addLayer lArg ("export:" ++ c.id) c.bytesChanged freshId estimate now).1,
      none)

/-- The state-mutating commands of the dispatcher surface, with their
external inputs. `CmdHelp`, `CmdLayers` and `CmdList` only read state and
write text, so they do not appear: they cannot change either map. -/
inductive Op where
  | opRun (flLayers posArgs : List String) (fresh : FreshContainer) (env : RunEnv)
  | opClone (cid : String) (fresh : FreshContainer) (env : RunEnv)
  | opGet (args : List String) (freshId : String) (estimate now : Nat)
  | opPut (args : List String) (freshId : String) (estimate now : Nat)
  | opExport (cArg lArg freshId : String) (estimate now : Nat)

/-- The state transition of one command invocation. -/
def Docker.applyOp (d : Docker) : Op → Docker
  | Op.opRun fl pos fresh env => (d.cmdRun fl pos fresh env).1
  | Op.opClone cid fresh env => (d.cmdClone cid fresh env).1
  | Op.opGet args i e n => (d.cmdGet args i e n).1
  | Op.opPut args i e n => (d.cmdPut args i e n).1
  | Op.opExport c l i e n => (d.cmdExport c l i e n).1

/-- Registry states reachable from `New()` by command invocations. -/
inductive Reachable : Docker → Prop where
  | init : Reachable Docker.new
  | step (d : Docker) (op : Op) : Reachable d → Reachable (d.applyOp op)

/-- Every container value stored in the containers map has
`Running == false`. -/
def allNotRunning (d : Docker) : Bool :=
  d.containers.all fun p => !p.2.running

/-- The case normalization of `getMethod` (dockerd.go:308):
`strings.ToUpper(name[:1]) + strings.ToLower(name[1:])`, stated on the
name's characters: first character upper-cased, remainder lower-cased.
(Go panics on an empty name; `ServeHTTP` never passes one, and here the
empty name normalizes to itself.) -/
def normalizeCmd (name : String) : String :=
  match name.data with
  | [] => name
  | c :: rest => String.mk (Char.toUpper c :: rest.map Char.toLower)

/-- The exported `Cmd`-prefixed methods of `*Docker` that
`reflect.TypeOf(docker).MethodByName` can find. `CmdUsage` is called by
`ServeHTTP` (dockerd.go:292,297) but defined outside the lone source
file; it is included because the program only links if it exists. -/
def dockerMethods : List String :=
  ["CmdHelp", "CmdLayers", "CmdGet", "CmdPut", "CmdExport",
   "CmdRun", "CmdClone", "CmdList", "CmdUsage"]

/-- `func (docker *Docker) getMethod` (dockerd.go:307-325): normalize the
name, prepend "Cmd", and look the method up by name; nil when absent.
The handler is identified by its resolved method name. -/
def getMethod (name : String) : Option String :=
  let methodName := "Cmd" ++ normalizeCmd name
  if dockerMethods.contains methodName then some methodName else none

/-- Modelled from the spec: `Docker.CmdUsage` is invoked by `ServeHTTP`
(dockerd.go:292,297) but its definition is missing from the repository's
single source file. Per the spec (§4.3), it writes a fixed command
summary to the output stream and returns success. The pair is (lines
written, returned error). -/
def cmdUsage : List String × Option String :=
  (["Usage: docker COMMAND [arg...]"], none)

/-- `func (docker *Docker) ServeHTTP` (dockerd.go:288-304), as the lines
it writes: an empty command name or a dispatch miss goes to `CmdUsage`
(its returned error is ignored, never printed); a resolved command runs
the handler (its output and returned error are the inputs `handlerOut`
and `handlerErr`) and a handler failure is appended as a single
"Error: <message>" line. -/
def serveHTTPOutput (cmd : String) (handlerOut : List String)
    (handlerErr : Option String) : List String :=
  if cmd = "" then cmdUsage.1
  else
    match getMethod cmd with
    | none => cmdUsage.1
    | some _ =>
      match handlerErr with
      | some e => handlerOut ++ ["Error: " ++ e]
      | none => handlerOut

/-! ## Theorems -/

/-- C1: running an already-running container fails immediately with
"Already running", spawns no child process, and leaves the receiver's
state (the running flag and every other field) unchanged. -/
theorem run_already_running_guard (c : Container) (env : RunEnv)
    (h : c.running = true) :
    c.run env =
      { container := c, err := some "Already running", spawned := false } := by
  simp [Container.run, h]

/-- Witness for C1 at a concrete running container. -/
def runningContainer : Container :=
  { id := "c1", cmd := "echo", args := ["hi"], layers := [], created := 0,
    filesChanged := 0, bytesChanged := 0, running := true }

theorem run_already_running_guard_witness :
    runningContainer.run { spawnErr := none, waitErr := none, copyOutErr := none } =
      { container := runningContainer, err := some "Already running",
        spawned := false } :=
  run_already_running_guard runningContainer
    { spawnErr := none, waitErr := none, copyOutErr := none } rfl

/-- C2: when the running flag is false at entry, after `Run` returns -
whatever the spawn, process-exit and copy outcomes were - the receiver's
running flag is false again (indeed the whole receiver is unchanged);
the reset goes through the single deferred `releaseRunning` step, which
`Container.run` applies unconditionally after the body. -/
theorem run_releases_running_flag (c : Container) (env : RunEnv)
    (h : c.running = false) :
    (c.run env).container.running = false ∧ (c.run env).container = c := by
  cases c
  simp_all [Container.run, Container.releaseRunning]

theorem run_releases_running_flag_witness :
    (runningContainer.releaseRunning.run
        { spawnErr := none, waitErr := some "exit status 1",
          copyOutErr := none }).container.running = false :=
  (run_releases_running_flag runningContainer.releaseRunning
    { spawnErr := none, waitErr := some "exit status 1", copyOutErr := none }
    rfl).1

/-- C6: past the guard and a successful spawn, a `cmd.Wait()` error is
returned as is, whatever the output-copy task reported; the output-copy
error becomes the final result exactly when the process exited cleanly. -/
theorem run_wait_error_before_copy_result (c : Container) (env : RunEnv)
    (h : c.running = false) (hs : env.spawnErr = none) :
    (∀ e, env.waitErr = some e → (c.run env).err = some e) ∧
    (env.waitErr = none → (c.run env).err = env.copyOutErr) := by
  constructor
  · intro e he
    simp [Container.run, Container.runBody, h, hs, he]
  · intro hw
    simp only [Container.run, Container.runBody, h, hs, hw, copyInTask,
      Bool.false_eq_true, if_false]
    cases env.copyOutErr <;> rfl

theorem run_wait_error_before_copy_result_witness :
    (runningContainer.releaseRunning.run
        { spawnErr := none, waitErr := some "exit status 1",
          copyOutErr := some "broken pipe" }).err = some "exit status 1" :=
  (run_wait_error_before_copy_result runningContainer.releaseRunning
    { spawnErr := none, waitErr := some "exit status 1",
      copyOutErr := some "broken pipe" } rfl rfl).1 "exit status 1" rfl

/-- C9: the input-discard task closes both the process stdin sink and
the caller's input stream, forwards no bytes to the child, and always
returns nil; consequently the `copy_in` error branch in `Run` is dead
code - the run body equals the body with that check removed. -/
theorem copy_in_discards_and_cannot_fail :
    copyInTask.closedCmdStdin = true ∧
    copyInTask.closedCallerStdin = true ∧
    copyInTask.bytesForwarded = 0 ∧
    copyInTask.err = none ∧
    ∀ env, Container.runBody env = Container.runBodyNoInCheck env := by
  refine ⟨rfl, rfl, rfl, rfl, ?_⟩
  intro env
  rfl

/-- Helper: `CmdRun` preserves the all-containers-idle invariant: on
every failure path the registry is untouched, and the container it
inserts is stored by value with `running = false` before `Run` mutates
only the local copy. -/
theorem allNotRunning_cmdRun (d : Docker) (fl pos : List String)
    (fresh : FreshContainer) (env : RunEnv) (h : allNotRunning d = true) :
    allNotRunning (d.cmdRun fl pos fresh env).1 = true := by
  unfold Docker.cmdRun
  split
  · exact h
  · split
    · exact h
    · split
      · exact h
      · simpa [allNotRunning] using h

/-- Helper: `CmdClone` preserves the all-containers-idle invariant. -/
theorem allNotRunning_cmdClone (d : Docker) (cid : String)
    (fresh : FreshContainer) (env : RunEnv) (h : allNotRunning d = true) :
    allNotRunning (d.cmdClone cid fresh env).1 = true := by
  unfold Docker.cmdClone
  split
  · exact h
  · exact allNotRunning_cmdRun d _ _ fresh env h

/-- Helper: `CmdGet` never touches the containers map. -/
theorem allNotRunning_cmdGet (d : Docker) (args : List String) (i : String)
    (e n : Nat) (h : allNotRunning d = true) :
    allNotRunning (d.cmdGet args i e n).1 = true := by
  cases args <;> exact h

/-- Helper: `CmdPut` never touches the containers map. -/
theorem allNotRunning_cmdPut (d : Docker) (args : List String) (i : String)
    (e n : Nat) (h : allNotRunning d = true) :
    allNotRunning (d.cmdPut args i e n).1 = true := by
  cases args <;> exact h

/-- Helper: `CmdExport` never touches the containers map. -/
theorem allNotRunning_cmdExport (d : Docker) (cArg lArg i : String)
    (e n : Nat) (h : allNotRunning d = true) :
    allNotRunning (d.cmdExport cArg lArg i e n).1 = true := by
  unfold Docker.cmdExport
  split <;> exact h

/-- C3: in every registry state reachable from `New()` by command
invocations, every container value stored in the containers map has
`Running == false`: `CmdRun` inserts the container by value before
calling `Run` on its local copy, so the `Running` mutation never reaches
the stored entry, and no operation sets `Running` on a map entry. -/
theorem reachable_containers_never_running (d : Docker) (h : Reachable d) :
    allNotRunning d = true := by
  induction h with
  | init => rfl
  | step d op hd ih =>
    cases op with
    | opRun fl pos fresh env => exact allNotRunning_cmdRun d fl pos fresh env ih
    | opClone cid fresh env => exact allNotRunning_cmdClone d cid fresh env ih
    | opGet args i e n => exact allNotRunning_cmdGet d args i e n ih
    | opPut args i e n => exact allNotRunning_cmdPut d args i e n ih
    | opExport c l i e n => exact allNotRunning_cmdExport d c l i e n ih

theorem reachable_containers_never_running_witness :
    allNotRunning (Docker.new.applyOp (Op.opGet ["ubuntu"] "id0" 5 0)) = true :=
  reachable_containers_never_running _
    (Reachable.step Docker.new (Op.opGet ["ubuntu"] "id0" 5 0) Reachable.init)

/-- Helper: when some name in the list matches neither registry,
`resolveLayers` returns an unresolved-reference error naming such a
name. -/
theorem resolveLayers_unresolved (d : Docker) (names : List String)
    (n : String) (hn : n ∈ names) (hl : mapLookup d.layers n = none)
    (hc : mapLookup d.containers n = none) :
    ∃ m, m ∈ names ∧ mapLookup d.layers m = none ∧
      mapLookup d.containers m = none ∧
      d.resolveLayers names =
        Except.error ("No such layer or container: " ++ m) := by
  induction names with
  | nil => exact absurd hn (List.not_mem_nil n)
  | cons a rest ih =>
    cases hla : mapLookup d.layers a with
    | some l =>
      have hmem : n ∈ rest := by
        rcases List.mem_cons.mp hn with rfl | hmem
        · rw [hl] at hla; exact absurd hla (by simp)
        · exact hmem
      obtain ⟨m, hm, hml, hmc, heq⟩ := ih hmem
      exact ⟨m, List.mem_cons_of_mem a hm, hml, hmc, by
        simp [Docker.resolveLayers, hla, heq]⟩
    | none =>
      cases hca : mapLookup d.containers a with
      | some c =>
        have hmem : n ∈ rest := by
          rcases List.mem_cons.mp hn with rfl | hmem
          · rw [hc] at hca; exact absurd hca (by simp)
          · exact hmem
        obtain ⟨m, hm, hml, hmc, heq⟩ := ih hmem
        exact ⟨m, List.mem_cons_of_mem a hm, hml, hmc, by
          simp [Docker.resolveLayers, hla, hca, heq]⟩
      | none =>
        exact ⟨a, List.mem_cons_self a rest, hla, hca, by
          simp [Docker.resolveLayers, hla, hca]⟩

/-- C4: a `run` invocation whose layer list holds a reference matching
neither a layer id nor a container id fails with a
"No such layer or container" error and leaves the registry -
in particular its containers map - exactly as it was. -/
theorem cmdRun_unresolved_reference (d : Docker) (flLayers : List String)
    (cmd : String) (rest : List String) (fresh : FreshContainer)
    (env : RunEnv) (n : String) (hn : n ∈ flLayers)
    (hl : mapLookup d.layers n = none)
    (hc : mapLookup d.containers n = none) :
    (∃ m, (d.cmdRun flLayers (cmd :: rest) fresh env).2 =
        some ("No such layer or container: " ++ m)) ∧
    (d.cmdRun flLayers (cmd :: rest) fresh env).1 = d := by
  obtain ⟨m, hm, hml, hmc, heq⟩ := resolveLayers_unresolved d flLayers n hn hl hc
  have h1 : ¬ flLayers.length < 1 := fun hlt =>
    List.ne_nil_of_mem hn (List.length_eq_zero.mp (Nat.lt_one_iff.mp hlt))
  exact ⟨⟨m, by simp [Docker.cmdRun, h1, heq]⟩, by simp [Docker.cmdRun, h1, heq]⟩

theorem cmdRun_unresolved_reference_witness :
    (Docker.new.cmdRun ["bogus"] ["true"]
        { id := "id1", now := 0, filesChanged := 0, bytesChanged := 0 }
        { spawnErr := none, waitErr := none, copyOutErr := none }).1 =
      Docker.new :=
  (cmdRun_unresolved_reference Docker.new ["bogus"] "true" []
    { id := "id1", now := 0, filesChanged := 0, bytesChanged := 0 }
    { spawnErr := none, waitErr := none, copyOutErr := none }
    "bogus" (List.mem_singleton.mpr rfl) rfl rfl).2

/-- C5: cloning a registered container (whose id, being fresh, is not a
layer id) registers a new container under the fresh id whose layer
sequence is exactly the source's, in the same order, and whose command
and argument list equal the source's. -/
theorem cmdClone_copies_layers_and_command (d : Docker) (cid : String)
    (c : Container) (fresh : FreshContainer) (env : RunEnv)
    (hc : mapLookup d.containers cid = some c)
    (hl : mapLookup d.layers cid = none) :
    mapLookup (d.cmdClone cid fresh env).1.containers fresh.id =
      some { id := fresh.id, cmd := c.cmd, args := c.args, layers := c.layers,
             created := fresh.now, filesChanged := fresh.filesChanged,
             bytesChanged := fresh.bytesChanged, running := false } := by
  have hres : d.resolveLayers [cid] = Except.ok c.layers := by
    simp [Docker.resolveLayers, hl, hc]
  simp [Docker.cmdClone, hc, Docker.cmdRun, hres, mapLookup]

/-- Concrete data for the C5 witness: a container with two layers. -/
def baseLayer : Layer :=
  { id := "l1", name := "base", added := 0, size := 1, source := "download" }

def appLayer : Layer :=
  { id := "l2", name := "app", added := 0, size := 2, source := "upload" }

def cloneSource : Container :=
  { id := "c0", cmd := "echo", args := ["hi"], layers := [baseLayer, appLayer],
    created := 0, filesChanged := 0, bytesChanged := 0, running := false }

def cloneDocker : Docker :=
  { layers := [], containers := [("c0", cloneSource)] }

theorem cmdClone_copies_layers_and_command_witness :
    mapLookup (cloneDocker.cmdClone "c0"
        { id := "c9", now := 3, filesChanged := 4, bytesChanged := 5 }
        { spawnErr := none, waitErr := none, copyOutErr := none }).1.containers
      "c9" =
      some { id := "c9", cmd := cloneSource.cmd, args := cloneSource.args,
             layers := cloneSource.layers, created := 3, filesChanged := 4,
             bytesChanged := 5, running := false } :=
  cmdClone_copies_layers_and_command cloneDocker "c0" cloneSource
    { id := "c9", now := 3, filesChanged := 4, bytesChanged := 5 }
    { spawnErr := none, waitErr := none, copyOutErr := none } rfl rfl

/-- C7: dispatch resolution normalizes the command name (first character
upper-cased, remainder lower-cased) before the method-table lookup, so
"Run", "run" and "RUN" all resolve to the `CmdRun` handler, and any two
non-empty names equal up to this normalization resolve alike. -/
theorem getMethod_case_normalizes :
    (getMethod "Run" = some "CmdRun" ∧ getMethod "run" = some "CmdRun" ∧
      getMethod "RUN" = some "CmdRun") ∧
    ∀ a b, a ≠ "" → b ≠ "" → normalizeCmd a = normalizeCmd b →
      getMethod a = getMethod b := by
  refine ⟨⟨by decide, by decide, by decide⟩, ?_⟩
  intro a b _ _ h
  simp [getMethod, h]

theorem getMethod_case_normalizes_witness :
    getMethod "rUn" = getMethod "RuN" :=
  getMethod_case_normalizes.2 "rUn" "RuN" (by decide) (by decide) (by decide)

/-- C8: an empty command name, or one that resolves to no handler, makes
the dispatcher write the fixed command summary to the output stream and
return success: `CmdUsage` reports no error and no "Error:" line is
written, so the response is exactly the usage summary. -/
theorem serveHTTP_unknown_writes_usage (cmd : String)
    (handlerOut : List String) (handlerErr : Option String)
    (h : cmd = "" ∨ getMethod cmd = none) :
    serveHTTPOutput cmd handlerOut handlerErr = cmdUsage.1 ∧
      cmdUsage.2 = none := by
  refine ⟨?_, rfl⟩
  rcases h with rfl | h
  · rfl
  · by_cases hc : cmd = ""
    · subst hc; rfl
    · simp [serveHTTPOutput, hc, h]

theorem serveHTTP_unknown_writes_usage_witness :
    serveHTTPOutput "frobnicate" ["partial output"] (some "boom") =
      cmdUsage.1 :=
  (serveHTTP_unknown_writes_usage "frobnicate" ["partial output"]
    (some "boom") (Or.inr (by decide))).1

/-- C10 counterexample: the size estimator `rand.Int31n(142*1024*1024)`
may legitimately draw 0 (it lies below the bound), and then `addLayer`
with size 0 stores a size of 0, which is not positive - refuting the
claim that the synthesized size is always positive. -/
theorem addLayer_estimate_zero_counterexample :
    0 < sizeEstimatorBound ∧
    ¬ 0 < ((Docker.new.addLayer "base" "download" 0 "id0" 0 7).2).size := by
  exact ⟨by decide, by decide⟩

/-- C10 (amended): for every `addLayer(name, source, size)` call, if
`size` is zero the stored size is the estimator's draw (a non-negative
value below 142 MiB, possibly zero); if `size` is non-zero the stored
size equals the given size; the returned layer carries the given name
and source and the fresh id, and is stored in the layer map under that
id, equal to the returned value. -/
theorem addLayer_stores_and_returns (d : Docker) (name source : String)
    (size : Nat) (freshId : String) (estimate now : Nat)
    (hest : estimate < sizeEstimatorBound) :
    (size = 0 →
      (d.addLayer name source size freshId estimate now).2.size = estimate ∧
      (d.addLayer name source size freshId estimate now).2.size <
        sizeEstimatorBound) ∧
    (size ≠ 0 →
      (d.addLayer name source size freshId estimate now).2.size = size) ∧
    (d.addLayer name source size freshId estimate now).2.name = name ∧
    (d.addLayer name source size freshId estimate now).2.source = source ∧
    (d.addLayer name source size freshId estimate now).2.id = freshId ∧
    mapLookup (d.addLayer name source size freshId estimate now).1.layers
        freshId =
      some (d.addLayer name source size freshId estimate now).2 := by
  refine ⟨?_, ?_, rfl, rfl, rfl, ?_⟩
  · intro h
    simp [Docker.addLayer, h, hest]
  · intro h
    simp [Docker.addLayer, h]
  · simp [Docker.addLayer, mapLookup]

theorem addLayer_stores_and_returns_witness :
    (Docker.new.addLayer "base" "download" 0 "id0" 5 7).2.size = 5 :=
  ((addLayer_stores_and_returns Docker.new "base" "download" 0 "id0" 5 7
    (by decide)).1 rfl).1

end Dockerd
